import Mathlib

/-!
Shallow embedding of the address-book lecture code (`src/traits.rs`,
`src/generics.rs`).

Modelling conventions:
  * A Rust `HashMap<K, V>` is a partial function `K → Option V`
    (`HMap K V`); `insert` updates the function at one key.
  * Rust `u8` values (ages, phone digits) are `Nat`; the program never
    performs arithmetic on them, only comparison and decimal printing,
    which agree with `Nat` on the `u8` range.
  * `[u8; 10]` is a `List Nat`; array equality is list equality.
  * Fallible operations (`HashMap` indexing, `FromStr::from_str`) return
    `Option`; a Rust panic / `unimplemented!()` is the `none` case.
-/

/-- A Rust `HashMap<K, V>`, modelled extensionally as a partial map. -/
def HMap (K V : Type) : Type := K → Option V

/-- `HashMap::new()` — the empty map. -/
def HMap.empty {K V : Type} : HMap K V := fun _ => none

/-- `HashMap::insert(k, v)` — replaces any previous value at `k`. -/
def HMap.insert {K V : Type} [DecidableEq K] (m : HMap K V) (k : K) (v : V) :
    HMap K V :=
  fun q => if q = k then some v else m q

/-- `struct Person` from `src/traits.rs`: name, age, a 10-digit phone
array and a favorite color. -/
structure Person where
  name : String
  age : Nat
  phone : List Nat
  favorite_color : String
deriving Repr, DecidableEq

/-- The hand-written `impl PartialEq for Person`: all four fields must
compare equal pairwise. -/
def Person.eq (self other : Person) : Bool :=
  self.name == other.name
    && self.age == other.age
    && self.phone == other.phone
    && self.favorite_color == other.favorite_color

/-- `struct AddressBook`: a `by_name` index from names to single records
and a `by_age` index from ages to vectors of records. -/
structure AddressBook where
  by_name : HMap String Person
  by_age : HMap Nat (List Person)

/-- `AddressBook::new()` — both indices empty. -/
def AddressBook.new : AddressBook :=
  { by_name := HMap.empty, by_age := HMap.empty }

/-- `AddressBook::add_person`: inserts the person under its name in
`by_name`, then inserts a fresh empty vector at the person's age in
`by_age`, then pushes the person onto that vector via
`get_mut(&age).unwrap().push(person)`.  The `unwrap` cannot fail because
the key was inserted on the previous line; the `getD []` below is that
always-successful unwrap. -/
def AddressBook.add_person (self : AddressBook) (person : Person) :
    AddressBook :=
  let by_name1 := self.by_name.insert person.name person
  let by_age1 := self.by_age.insert person.age []
  let by_age2 :=
    by_age1.insert person.age ((by_age1 person.age).getD [] ++ [person])
  { by_name := by_name1, by_age := by_age2 }

/-- `impl Index<&str> for AddressBook`: `&self.by_name[idx]`.  The
`HashMap` index operation fails (panics) on an absent key; the failure
is the `none` case. -/
def AddressBook.index (self : AddressBook) (idx : String) : Option Person :=
  self.by_name idx

/-- `impl Display for Person`: writes
`"Person with name {}, age {}, other details omitted"` with the name
and age substituted. -/
def Person.display (self : Person) : String :=
  "Person with name " ++ self.name ++ ", age " ++ toString self.age
    ++ ", other details omitted"

/-- `const DEFAULT_PHONE: [u8; 10]`. -/
def DEFAULT_PHONE : List Nat := [5, 5, 5, 5, 5, 5, 5, 5, 5, 5]

/-- `impl From<(String, u8)> for Person`: the name and age from the
tuple, `DEFAULT_PHONE`, and `favorite_color = "Unknown"`. -/
def Person.from_tuple (t : String × Nat) : Person :=
  { name := t.1
    age := t.2
    phone := DEFAULT_PHONE
    favorite_color := "Unknown" }

/-- The blanket `impl Into for T where U: From<T>` of the standard
library: `x.into()` just calls `U::from(x)`. -/
def Person.into (t : String × Nat) : Person :=
  Person.from_tuple t

/-- `impl FromStr for Person`: the body is `unimplemented!()`, which
aborts on every input; the abort is the `none` case. -/
def Person.from_str (_s : String) : Option Person :=
  none

/-- The `caleb` record used by the tests in `src/traits.rs`. -/
def caleb : Person :=
  { name := "caleb"
    age := 26
    phone := [5, 5, 5, 5, 5, 5, 5, 5, 5, 5]
    favorite_color := "Purple" }

/-- `struct PhoneNumber([u8; 10])`. -/
structure PhoneNumber where
  val : List Nat

/-- Rust's `format!("{:?}", arr)` on a `[u8; 10]`: the elements printed
in decimal, separated by `", "`, between square brackets. -/
def rustDebugList (l : List Nat) : String :=
  "[" ++ String.intercalate ", " (l.map toString) ++ "]"

/-- `impl Summary for PhoneNumber`, `short_summary`:
`format!("{:?}", &self.0)`. -/
def PhoneNumber.short_summary (self : PhoneNumber) : String :=
  rustDebugList self.val

/-- `impl Summary for PhoneNumber`, `long_summary`: delegates to
`short_summary`. -/
def PhoneNumber.long_summary (self : PhoneNumber) : String :=
  self.short_summary

/-- `impl Summary for PhoneNumber`, `summary_in_lines`: the short
summary when `lines > 0`, the empty string otherwise. -/
def PhoneNumber.summary_in_lines (self : PhoneNumber) (lines : Nat) :
    String :=
  if lines > 0 then self.short_summary else ""

/-- `trait Summary2`: the three required operations, as a record of
operations over a carrier type (one value of `Summary2Impl α` per Rust
`impl Summary2 for α`). -/
structure Summary2Impl (α : Type) where
  short_summary : α → String
  long_summary : α → String
  summary_in_lines : α → Nat → String

/-- The derived method `summary_in_10_lines` of `trait Summary2`,
provided once for every implementing type: `self.summary_in_lines(10)`. -/
def Summary2Impl.summary_in_10_lines {α : Type} (inst : Summary2Impl α)
    (self : α) : String :=
  inst.summary_in_lines self 10

/-- `get_first` from `src/generics.rs`: `None` on an empty slice,
otherwise `Some(&list[0])`; the index is guarded by the emptiness
check. -/
def get_first {T : Type} (list : List T) : Option T :=
  if h : list.isEmpty then none
  else
    some (list.get ⟨0, by
      simp only [List.isEmpty_iff] at h
      exact List.length_pos.mpr h⟩)

/-- Helper: `Person.eq` holds exactly when all four fields agree. -/
lemma Person.eq_iff (p q : Person) :
    Person.eq p q = true ↔
      p.name = q.name ∧ p.age = q.age ∧ p.phone = q.phone ∧
        p.favorite_color = q.favorite_color := by
  simp [Person.eq, and_assoc]

/-- Helper: the Rust debug rendering of a byte list is never the empty
string (it always starts with an opening bracket). -/
lemma rustDebugList_ne_empty (l : List Nat) : rustDebugList l ≠ "" := by
  intro h
  have hd := congrArg String.data h
  simp only [rustDebugList, String.data_append] at hd
  simp at hd

/-- C1: after `add_person record`, the `by_name` index maps
`record.name` to exactly `record`, and `record` is a member of the
`by_age` bucket for `record.age`. -/
theorem add_person_establishes_indices (book : AddressBook)
    (record : Person) :
    (book.add_person record).by_name record.name = some record ∧
      ∃ bucket, (book.add_person record).by_age record.age = some bucket ∧
        record ∈ bucket := by
  refine ⟨?_, [record], ?_, ?_⟩
  · simp [AddressBook.add_person, HMap.insert]
  · simp [AddressBook.add_person, HMap.insert]
  · simp

/-- C2: adding `a` and then `b` with the same age leaves the shared age
bucket holding only `b` — `add_person` replaces the bucket with an empty
vector before pushing the new record. -/
theorem add_person_same_age_replaces_bucket (book : AddressBook)
    (a b : Person) (h : a.age = b.age) :
    ((book.add_person a).add_person b).by_age a.age = some [b] := by
  simp [AddressBook.add_person, HMap.insert, h]

/-- Witness for C2 at two concrete records of age 26. -/
theorem add_person_same_age_replaces_bucket_witness :
    ((AddressBook.new.add_person caleb).add_person
        (Person.from_tuple ("dana", 26))).by_age caleb.age =
      some [Person.from_tuple ("dana", 26)] :=
  add_person_same_age_replaces_bucket AddressBook.new caleb
    (Person.from_tuple ("dana", 26)) rfl

/-- C3: indexed lookup by name returns the stored record when the exact
key is present, and on an absent key it yields the explicit failure
value `none`, never some defaulted record. -/
theorem index_lookup_exact_or_fails (book : AddressBook) (key : String) :
    (∀ record : Person,
        book.by_name key = some record → book.index key = some record) ∧
      (book.by_name key = none →
        book.index key = none ∧
          ∀ record : Person, book.index key ≠ some record) := by
  refine ⟨fun record h => ?_, fun h => ⟨?_, fun record hc => ?_⟩⟩
  · simpa [AddressBook.index] using h
  · simpa [AddressBook.index] using h
  · rw [AddressBook.index, h] at hc
    exact Option.noConfusion hc

/-- Witness for C3: a present key returns the stored record, an absent
key returns no record. -/
theorem index_lookup_exact_or_fails_witness :
    (AddressBook.new.add_person caleb).index "caleb" = some caleb ∧
      AddressBook.new.index "zoe" = none :=
  ⟨(index_lookup_exact_or_fails (AddressBook.new.add_person caleb)
        "caleb").1 caleb (by decide),
    ((index_lookup_exact_or_fails AddressBook.new "zoe").2 rfl).1⟩

/-- C4: `Person.eq` holds iff all four fields agree pairwise; it is
reflexive, symmetric and transitive, and a differing field breaks it. -/
theorem person_eq_is_structural_equivalence (p q r : Person) :
    (Person.eq p q = true ↔
        p.name = q.name ∧ p.age = q.age ∧ p.phone = q.phone ∧
          p.favorite_color = q.favorite_color) ∧
      Person.eq p p = true ∧
      (Person.eq p q = true → Person.eq q p = true) ∧
      (Person.eq p q = true → Person.eq q r = true →
        Person.eq p r = true) := by
  refine ⟨Person.eq_iff p q, ?_, fun h => ?_, fun h h2 => ?_⟩
  · simp [Person.eq]
  · rw [Person.eq_iff] at h ⊢
    exact ⟨h.1.symm, h.2.1.symm, h.2.2.1.symm, h.2.2.2.symm⟩
  · rw [Person.eq_iff] at h h2 ⊢
    exact ⟨h.1.trans h2.1, h.2.1.trans h2.2.1, h.2.2.1.trans h2.2.2.1,
      h.2.2.2.trans h2.2.2.2⟩

/-- Witness for C4: symmetry applied at `caleb`, its hypothesis
discharged by reflexivity. -/
theorem person_eq_is_structural_equivalence_witness :
    Person.eq caleb caleb = true :=
  (person_eq_is_structural_equivalence caleb caleb caleb).2.2.1
    (person_eq_is_structural_equivalence caleb caleb caleb).2.1

/-- C5: `Display` renders exactly
`"Person with name {name}, age {age}, other details omitted"`; on
`caleb` (age 26) it gives the exact expected string, and the output
depends only on name and age, never on phone or favorite color. -/
theorem person_display_format (p q : Person) :
    p.display =
        "Person with name " ++ p.name ++ ", age " ++ toString p.age
          ++ ", other details omitted" ∧
      caleb.display = "Person with name caleb, age 26, other details omitted" ∧
      (p.name = q.name → p.age = q.age → p.display = q.display) := by
  refine ⟨rfl, by decide, fun h1 h2 => ?_⟩
  simp [Person.display, h1, h2]

/-- Witness for C5 at `caleb`, the independence hypotheses discharged by
reflexivity. -/
theorem person_display_format_witness :
    caleb.display = "Person with name caleb, age 26, other details omitted" ∧
      caleb.display = caleb.display :=
  ⟨(person_display_format caleb caleb).2.1,
    (person_display_format caleb caleb).2.2 rfl rfl⟩

/-- C6: tuple conversion keeps the given name and age, fills in the
fixed default phone `[5,5,5,5,5,5,5,5,5,5]` and color `"Unknown"`, and
the explicit constructor and the derived `.into()` path agree. -/
theorem person_from_tuple_defaults (name : String) (age : Nat) :
    (Person.from_tuple (name, age)).name = name ∧
      (Person.from_tuple (name, age)).age = age ∧
      (Person.from_tuple (name, age)).phone = [5, 5, 5, 5, 5, 5, 5, 5, 5, 5] ∧
      (Person.from_tuple (name, age)).favorite_color = "Unknown" ∧
      Person.into (name, age) = Person.from_tuple (name, age) ∧
      Person.eq (Person.from_tuple (name, age)) (Person.into (name, age)) =
        true := by
  refine ⟨rfl, rfl, rfl, rfl, rfl, ?_⟩
  simp [Person.eq, Person.into]

/-- C7: `from_str` aborts on every input: no string parses to a
record. -/
theorem person_from_str_always_fails (s : String) :
    Person.from_str s = none :=
  rfl

/-- C8: `summary_in_lines 0` is the empty string, and for any positive
line count the summary coincides with both `short_summary` and
`long_summary` and is non-empty, independent of the count. -/
theorem phone_number_summary_boundary (pn : PhoneNumber) (n : Nat) :
    pn.summary_in_lines 0 = "" ∧
      (0 < n →
        pn.summary_in_lines n = pn.short_summary ∧
          pn.summary_in_lines n = pn.long_summary ∧
          pn.summary_in_lines n ≠ "") := by
  refine ⟨rfl, fun h => ⟨?_, ?_, ?_⟩⟩
  · simp [PhoneNumber.summary_in_lines, h]
  · simp [PhoneNumber.summary_in_lines, PhoneNumber.long_summary, h]
  · simp only [PhoneNumber.summary_in_lines, h, if_pos]
    exact rustDebugList_ne_empty pn.val

/-- Witness for C8 on a concrete phone number with one requested
line. -/
theorem phone_number_summary_boundary_witness :
    PhoneNumber.summary_in_lines ⟨DEFAULT_PHONE⟩ 0 = "" ∧
      (PhoneNumber.summary_in_lines ⟨DEFAULT_PHONE⟩ 1 =
          PhoneNumber.short_summary ⟨DEFAULT_PHONE⟩ ∧
        PhoneNumber.summary_in_lines ⟨DEFAULT_PHONE⟩ 1 =
          PhoneNumber.long_summary ⟨DEFAULT_PHONE⟩ ∧
        PhoneNumber.summary_in_lines ⟨DEFAULT_PHONE⟩ 1 ≠ "") :=
  ⟨(phone_number_summary_boundary ⟨DEFAULT_PHONE⟩ 1).1,
    (phone_number_summary_boundary ⟨DEFAULT_PHONE⟩ 1).2 (by decide)⟩

/-- C9: for every implementation of the three required `Summary2`
operations and every value, the derived `summary_in_10_lines` equals
`summary_in_lines 10` exactly. -/
theorem summary_in_10_lines_is_derived (α : Type) (inst : Summary2Impl α)
    (x : α) :
    inst.summary_in_10_lines x = inst.summary_in_lines x 10 :=
  rfl

/-- C10: `get_first` returns `none` exactly on the empty slice, and on a
non-empty slice it returns the element at index 0; the access is guarded
so the function is total. -/
theorem get_first_spec (T : Type) (list : List T) :
    (get_first list = none ↔ list = []) ∧
      ∀ h : 0 < list.length, get_first list = some (list.get ⟨0, h⟩) := by
  cases list with
  | nil =>
      refine ⟨by simp [get_first], fun h => absurd h (by simp)⟩
  | cons x xs =>
      refine ⟨by simp [get_first], fun h => ?_⟩
      simp [get_first]

/-- Witness for C10 on the one-element list `[3]`. -/
theorem get_first_spec_witness : get_first [(3 : Nat)] = some 3 :=
  (get_first_spec Nat [(3 : Nat)]).2 (by decide)
